import Mathlib

/-!
Shallow embedding of the newsletter service (subscription lifecycle,
confirmation, collaborator registration, and the idempotent newsletter
publication pipeline) together with proofs of its specified properties.

Rust strings are embedded as lists of unicode scalar values (`Str`);
byte lengths are computed through the UTF-8 size of each scalar value.
Where the source relies on grapheme segmentation (subscriber names), the
input is carried already segmented (`GStr`), since the segmentation
algorithm itself lives in the external unicode-segmentation crate.
External collaborators (the relational store, the email gateway, the
template renderer, the email-format validator crate) are parameters of
the models, exactly as the spec treats them.
-/

abbrev Str := List Char

/-- Unicode white-space, as used by trim in the source language. -/
def rustIsWhitespace (c : Char) : Bool :=
  c.toNat = 0x20 || (0x09 ≤ c.toNat && c.toNat ≤ 0x0d) || c.toNat = 0x85 ||
  c.toNat = 0xa0 || c.toNat = 0x1680 || (0x2000 ≤ c.toNat && c.toNat ≤ 0x200a) ||
  c.toNat = 0x2028 || c.toNat = 0x2029 || c.toNat = 0x202f || c.toNat = 0x205f ||
  c.toNat = 0x3000

/-- trim: remove leading and trailing white-space. -/
def rustTrim (s : Str) : Str :=
  ((s.dropWhile rustIsWhitespace).reverse.dropWhile rustIsWhitespace).reverse

/-- String::len in the source counts UTF-8 bytes. -/
def utf8Len (s : Str) : Nat :=
  (s.map Char.utf8Size).sum

/-- char::is_ascii_alphanumeric. -/
def isAsciiAlphanumeric (c : Char) : Bool :=
  (0x61 ≤ c.toNat && c.toNat ≤ 0x7a) || (0x41 ≤ c.toNat && c.toNat ≤ 0x5a) ||
  (0x30 ≤ c.toNat && c.toNat ≤ 0x39)

/-- char::is_ascii_digit. -/
def isAsciiDigit (c : Char) : Bool :=
  0x30 ≤ c.toNat && c.toNat ≤ 0x39

/-! ## Identity value types (src/domain, src/idempotency/key.rs) -/

/-- src/idempotency/key.rs: `IdempotencyKey(String)`. -/
structure IdempotencyKey where
  val : Str
deriving DecidableEq

namespace IdempotencyKey

/-- src/idempotency/key.rs: `TryFrom<String> for IdempotencyKey` — rejects the
empty string and any string of 50 bytes or more. -/
def tryFrom (s : Str) : Except Unit IdempotencyKey :=
  if s.isEmpty then .error ()
  else if 50 ≤ utf8Len s then .error ()
  else .ok ⟨s⟩

end IdempotencyKey

/-- src/domain/token.rs: `Token(String)`. -/
structure Token where
  val : Str
deriving DecidableEq

namespace Token

/-- src/domain/token.rs: `Token::parse` — rejects strings that are empty after
trimming, whose byte length differs from 30, or that hold a character that is
not ASCII alphanumeric. -/
def parse (s : Str) : Except Str Token :=
  let is_empty_or_whitespace := (rustTrim s).isEmpty
  let has_invalid_size := utf8Len s ≠ 30
  let contains_forbidden_chars := s.any (fun c => !(isAsciiAlphanumeric c))
  if is_empty_or_whitespace || has_invalid_size || contains_forbidden_chars then
    .error s
  else
    .ok ⟨s⟩

end Token

/-- src/domain/subscription_token.rs: `SubscriptionToken(String)`. -/
structure SubscriptionToken where
  val : Str
deriving DecidableEq

namespace SubscriptionToken

/-- src/domain/subscription_token.rs: `SubscriptionToken::parse` — same rules
as `Token::parse`. -/
def parse (s : Str) : Except Str SubscriptionToken :=
  let is_empty_or_whitespace := (rustTrim s).isEmpty
  let has_invalid_size := utf8Len s ≠ 30
  let contains_forbidden_chars := s.any (fun c => !(isAsciiAlphanumeric c))
  if is_empty_or_whitespace || has_invalid_size || contains_forbidden_chars then
    .error s
  else
    .ok ⟨s⟩

end SubscriptionToken

/-- src/domain/invitation_token.rs: `InvitationToken(Token)`. -/
structure InvitationToken where
  val : Token
deriving DecidableEq

namespace InvitationToken

/-- src/domain/invitation_token.rs: `InvitationToken::parse` delegates to
`Token::parse`. -/
def parse (s : Str) : Except Str InvitationToken :=
  (Token.parse s).map InvitationToken.mk

end InvitationToken

/-- src/domain/validation_code.rs: `ValidationCode(String)`. -/
structure ValidationCode where
  val : Str
deriving DecidableEq

namespace ValidationCode

/-- src/domain/validation_code.rs: `ValidationCode::parse` — accepts exactly
six ASCII digits (`s.length() == 6 && s.chars().all(is_ascii_digit)`). -/
def parse (s : Str) : Except Str ValidationCode :=
  if s.length = 6 && s.all isAsciiDigit then
    .ok ⟨s⟩
  else
    .error s

end ValidationCode

/-- A string carried together with its extended-grapheme-cluster
segmentation, as produced by the external unicode-segmentation crate:
the list of clusters, each a non-empty run of scalar values. -/
structure GStr where
  graphemes : List Str
deriving DecidableEq

/-- The underlying scalar-value sequence of a segmented string. -/
def GStr.chars (s : GStr) : Str :=
  s.graphemes.flatten

/-- src/domain/subscriber_name.rs: the three error variants. -/
inductive SubscriberNameError where
  | Empty
  | TooLong
  | InvalidCharacters
deriving DecidableEq

/-- src/domain/subscriber_name.rs: `SubscriberName(String)`. -/
structure SubscriberName where
  val : GStr
deriving DecidableEq

/-- src/domain/subscriber_name.rs: `FORBIDDEN_CHARS`. -/
def FORBIDDEN_CHARS : List Char :=
  ['/', '(', ')', '\"', '<', '>', '\\', '\x7b', '\x7d']

namespace SubscriberName

/-- src/domain/subscriber_name.rs: `SubscriberName::parse` — empty after trim
is `Empty`; a 257th grapheme cluster (`graphemes(true).nth(256).is_some()`) is
`TooLong`; any forbidden character is `InvalidCharacters`. -/
def parse (s : GStr) : Except SubscriberNameError SubscriberName :=
  let is_empty_or_whitespace := (rustTrim s.chars).isEmpty
  if is_empty_or_whitespace then
    .error .Empty
  else
    let is_too_long := !(s.graphemes.drop 256).isEmpty
    if is_too_long then
      .error .TooLong
    else
      let contains_forbidden_chars :=
        s.chars.any (fun g => FORBIDDEN_CHARS.contains g)
      if contains_forbidden_chars then
        .error .InvalidCharacters
      else
        .ok ⟨s⟩

end SubscriberName

/-- src/domain/email.rs: `Email(String)`. The validator crate's
`validate_email` is an external collaborator, passed in as a predicate. -/
structure Email where
  val : Str
deriving DecidableEq

namespace Email

/-- src/domain/email.rs: `Email::parse` — accepts exactly the strings the
external validator accepts. -/
def parse (validate_email : Str → Bool) (s : Str) : Except Unit Email :=
  if validate_email s then .ok ⟨s⟩ else .error ()

end Email

/-! ## Idempotency store and newsletter publication pipeline
(src/routes/admin/newsletters/post.rs; the store itself is absent from the
sources, only its caller is, so it is modelled from the spec, section 4.3) -/

/-- Decidable equality for the embedding of Result values. -/
instance instDecEqExcept {ε α : Type} [DecidableEq ε] [DecidableEq α] :
    DecidableEq (Except ε α) := fun a b =>
  match a, b with
  | .ok x, .ok y =>
    if h : x = y then .isTrue (congrArg Except.ok h)
    else .isFalse (fun hc => h (Except.ok.inj hc))
  | .error x, .error y =>
    if h : x = y then .isTrue (congrArg Except.error h)
    else .isFalse (fun hc => h (Except.error.inj hc))
  | .ok _, .error _ => .isFalse (fun hc => Except.noConfusion hc)
  | .error _, .ok _ => .isFalse (fun hc => Except.noConfusion hc)

/-- An HTTP response, reduced to what the pipeline produces and caches:
status code and redirect target. -/
structure HttpResp where
  status : Nat
  location : Str
deriving DecidableEq

/-- utils::see_other — a 303 redirect. -/
def see_other (location : Str) : HttpResp :=
  ⟨303, location⟩

/-- The redirect target of a successful publication. -/
def adminNewslettersPath : Str :=
  ['/', 'a', 'd', 'm', 'i', 'n', '/', 'n', 'e', 'w', 's', 'l', 'e', 't',
   't', 'e', 'r', 's']

/-- The committed idempotency table: rows keyed by (user id, key), holding
the cached response once processing completed. -/
abbrev IdemDb := List ((Nat × Str) × Option HttpResp)

/-- Fetch the committed idempotency row for a (user id, key) pair. -/
def idemLookup (db : IdemDb) (user_id : Nat) (key : Str) : Option (Option HttpResp) :=
  (db.find? (fun r => r.1 == (user_id, key))).map (fun r => r.2)

/-- Modelled from the spec: the two outcomes of `try_processing`
(`NextAction` in src/routes/admin/newsletters/post.rs's imports; the defining
module is missing from the sources). -/
inductive NextAction where
  | StartProcessing
  | ReturnSavedResponse (saved : HttpResp)
deriving DecidableEq

/-- Modelled from the spec: `try_processing` (named `begin_processing` in the
spec, section 4.3) — reserving the key succeeds when no row exists (the
reservation itself stays inside the still-open transaction, so it is not yet
visible in the committed table); a conflicting row with a cached response is
returned for replay; a conflicting row without one (a concurrent in-flight
attempt) is outside this serialized model and surfaces as an error. -/
def try_processing (db : IdemDb) (key : IdempotencyKey) (user_id : Nat) :
    Option NextAction :=
  match idemLookup db user_id key.val with
  | none => some .StartProcessing
  | some (some saved) => some (.ReturnSavedResponse saved)
  | some none => none

/-- Modelled from the spec: `save_response` — writes the serialized response
into the reserved row and commits the transaction, making the row the single
committed record for (user id, key). -/
def save_response (db : IdemDb) (key : IdempotencyKey) (user_id : Nat)
    (response : HttpResp) : IdemDb :=
  ((user_id, key.val), some response) ::
    db.filter (fun r => !(r.1 == (user_id, key.val)))

/-- External collaborators of the publication pipeline: the confirmed-
subscriber rows the store returns, the external email-format validator, and
the per-recipient outcome of the email gateway. -/
structure PublishEnv where
  rows : List Str
  emailValid : Str → Bool
  sendOk : Str → Bool

/-- src/routes/admin/newsletters/post.rs: `get_confirmed_subscribers` — every
stored email of a confirmed subscriber, re-validated through the email
identity type. -/
def get_confirmed_subscribers (env : PublishEnv) : List (Except Unit Email) :=
  env.rows.map (fun r => Email.parse env.emailValid r)

/-- The observable calls the publication pipeline makes, in order. -/
inductive PubEffect where
  | fetchSubscribers
  | tryProcessingE
  | sendEmail (recipient : Str)
  | saveResponseE
deriving DecidableEq

/-- src/routes/admin/newsletters/post.rs: `FormData`. -/
structure PublishFormData where
  title : Str
  html_content : Str
  text_content : Str
  idempotency_key : Str
deriving DecidableEq

/-- Result of one publish attempt: the HTTP outcome (`.error s` for an
`e400`/`e500` rejection), the committed idempotency table afterwards, and the
trace of calls made. -/
structure PubOutcome where
  response : Except Nat HttpResp
  idem : IdemDb
  trace : List PubEffect
deriving DecidableEq

/-- src/routes/admin/newsletters/post.rs, lines 90-114: the dispatch loop.
Returns the recipients to whom a send was attempted (in order) and whether
all attempts succeeded; rows with invalid stored emails are skipped, the
first failing dispatch aborts the loop. -/
def sendLoop (env : PublishEnv) : List (Except Unit Email) → List Str × Bool
  | [] => ([], true)
  | .error _ :: rest => sendLoop env rest
  | .ok e :: rest =>
    if env.sendOk e.val then
      let r := sendLoop env rest
      (e.val :: r.1, r.2)
    else
      ([e.val], false)

/-- src/routes/admin/newsletters/post.rs: `publish_newsletter`. The
subscriber fetch happens first, then the idempotency key is validated, then
the store is consulted, and only a fresh reservation runs the dispatch loop
and saves the response. -/
def publish_newsletter (env : PublishEnv) (db : IdemDb) (user_id : Nat)
    (form : PublishFormData) : PubOutcome :=
  let subscribers := get_confirmed_subscribers env
  match IdempotencyKey.tryFrom form.idempotency_key with
  | .error _ => ⟨.error 400, db, [.fetchSubscribers]⟩
  | .ok idempotency_key =>
    match try_processing db idempotency_key user_id with
    | none => ⟨.error 500, db, [.fetchSubscribers, .tryProcessingE]⟩
    | some (.ReturnSavedResponse saved) =>
      ⟨.ok saved, db, [.fetchSubscribers, .tryProcessingE]⟩
    | some .StartProcessing =>
      let r := sendLoop env subscribers
      let tr := [PubEffect.fetchSubscribers, PubEffect.tryProcessingE] ++
        r.1.map PubEffect.sendEmail
      if r.2 then
        let response := see_other adminNewslettersPath
        ⟨.ok response, save_response db idempotency_key user_id response,
          tr ++ [.saveResponseE]⟩
      else
        ⟨.error 500, db, tr⟩

/-- Sequential repetition of the same publish request: each attempt starts
from the committed table the previous attempt left behind. -/
def publishN (env : PublishEnv) (user_id : Nat) (form : PublishFormData) :
    Nat → IdemDb → List PubOutcome
  | 0, _ => []
  | n + 1, db =>
    let o := publish_newsletter env db user_id form
    o :: publishN env user_id form n o.idem

/-! ## Subscriber lifecycle (src/routes/subscriptions.rs) -/

/-- The status column of the subscriptions table. -/
inductive SubStatus where
  | pending_confirmation
  | confirmed
deriving DecidableEq

/-- One row of the subscriptions table. -/
structure SubRow where
  id : Nat
  email : Str
  name : GStr
  subscribed_at : Nat
  status : SubStatus
deriving DecidableEq

/-- src/domain: `NewSubscriber` — a validated email and name pair. -/
structure NewSubscriber where
  email : Email
  name : SubscriberName
deriving DecidableEq

/-- src/routes/subscriptions.rs: the subscribe form. -/
structure SubscribeFormData where
  email : Str
  name : GStr
deriving DecidableEq

/-- src/routes/subscriptions.rs: `TryFrom<FormData> for NewSubscriber` —
email parsed first, then name. -/
def newSubscriberTryFrom (validate_email : Str → Bool)
    (form : SubscribeFormData) : Except Unit NewSubscriber :=
  match Email.parse validate_email form.email with
  | .error _ => .error ()
  | .ok email =>
    match SubscriberName.parse form.name with
    | .error _ => .error ()
    | .ok name => .ok ⟨email, name⟩

/-- src/routes/subscriptions.rs: `SubscriptionState`. -/
inductive SubscriptionState where
  | Inserted (id : Nat)
  | Pending (id : Nat)
  | Confirmed
deriving DecidableEq

/-- The upsert `INSERT ... ON CONFLICT (email) DO UPDATE SET status =
subscriptions.status RETURNING id, status` of `insert_susbscriber`: on a
fresh email the new row is appended and its own (id, status) returned; on a
conflict the stored row's status is rewritten to its own current value (so
every stored column keeps its value) and the stored (id, status) returned. -/
def upsertSubscription (subs : List SubRow) (row : SubRow) :
    (Nat × SubStatus) × List SubRow :=
  match subs.find? (fun r => r.email == row.email) with
  | some existing =>
    ((existing.id, existing.status),
      subs.map (fun r =>
        if r.email == row.email then { r with status := r.status } else r))
  | none => ((row.id, row.status), subs ++ [row])

/-- src/routes/subscriptions.rs: `insert_susbscriber` — runs the upsert with
a freshly generated id and classifies the outcome by comparing the returned
id with the generated one and inspecting the returned status. -/
def insert_susbscriber (subs : List SubRow) (subscriber_id : Nat)
    (new_subscriber : NewSubscriber) (now : Nat) :
    SubscriptionState × List SubRow :=
  let result := upsertSubscription subs
    ⟨subscriber_id, new_subscriber.email.val, new_subscriber.name.val, now,
      .pending_confirmation⟩
  let status :=
    if subscriber_id = result.1.1 then
      SubscriptionState.Inserted subscriber_id
    else if result.1.2 = SubStatus.pending_confirmation then
      SubscriptionState.Pending result.1.1
    else
      SubscriptionState.Confirmed
  (status, result.2)

/-- src/routes/subscriptions.rs: `store_token` — insert one
(subscription_token, subscriber_id) row. -/
def store_token (tokens : List (Str × Nat)) (subscriber_id : Nat)
    (subscription_token : Str) : List (Str × Nat) :=
  tokens ++ [(subscription_token, subscriber_id)]

/-- src/routes/subscriptions.rs: `get_subscriber_confirmation_token` —
`fetch_one` of the token row of a subscriber; a missing row is the
`GetTokenError` case, modelled by `none`. -/
def get_subscriber_confirmation_token (tokens : List (Str × Nat))
    (subscriber_id : Nat) : Option Str :=
  (tokens.find? (fun p => p.2 == subscriber_id)).map (fun p => p.1)

/-- External collaborators of the subscribe handler: the email-format
validator, the template renderer outcome, and the email gateway outcome. -/
structure SubscribeEnv where
  validate_email : Str → Bool
  templateOk : Bool
  sendOk : Bool

/-- The observable calls the subscribe handler makes, in order. -/
inductive SubEffect where
  | insertSubscriberE
  | storeTokenE
  | getTokenE
  | sendConfirmationE (recipient : Str) (token : Str)
  | commitE
deriving DecidableEq

/-- Result of one subscribe request: HTTP status and the committed tables
afterwards (error paths never commit, so they return the initial tables),
plus the trace of calls made. -/
structure SubscribeOutcome where
  status : Nat
  subs : List SubRow
  tokens : List (Str × Nat)
  trace : List SubEffect
deriving DecidableEq

/-- src/routes/subscriptions.rs, lines 300-313: the tail of `subscribe` —
render the confirmation template (500 on failure, transaction dropped), send
the confirmation email (500 on failure, transaction dropped), then commit and
answer 200. `subs1`/`tokens1` are the staged, uncommitted tables. -/
def subscribeFinish (env : SubscribeEnv) (subs0 : List SubRow)
    (tokens0 : List (Str × Nat)) (subs1 : List SubRow)
    (tokens1 : List (Str × Nat)) (form : SubscribeFormData)
    (subscription_token : Str) (tr : List SubEffect) : SubscribeOutcome :=
  if !env.templateOk then
    ⟨500, subs0, tokens0, tr⟩
  else if !env.sendOk then
    ⟨500, subs0, tokens0,
      tr ++ [.sendConfirmationE form.email subscription_token]⟩
  else
    ⟨200, subs1, tokens1,
      tr ++ [.sendConfirmationE form.email subscription_token, .commitE]⟩

/-- src/routes/subscriptions.rs: `subscribe` — parse the form (400 on
failure), upsert the subscriber, then branch on the subscription state:
`Confirmed` answers 406 with nothing staged; `Inserted` stores the fresh
token; `Pending` re-fetches the stored token (500 if absent); finally render,
send and commit. -/
def subscribe (env : SubscribeEnv) (subs0 : List SubRow)
    (tokens0 : List (Str × Nat)) (form : SubscribeFormData)
    (subscriber_id : Nat) (fresh_token : Str) (now : Nat) : SubscribeOutcome :=
  match newSubscriberTryFrom env.validate_email form with
  | .error _ => ⟨400, subs0, tokens0, []⟩
  | .ok new_subscriber =>
    let ins := insert_susbscriber subs0 subscriber_id new_subscriber now
    match ins.1 with
    | .Confirmed => ⟨406, subs0, tokens0, [.insertSubscriberE]⟩
    | .Inserted sid =>
      let tokens1 := store_token tokens0 sid fresh_token
      subscribeFinish env subs0 tokens0 ins.2 tokens1 form fresh_token
        [.insertSubscriberE, .storeTokenE]
    | .Pending sid =>
      match get_subscriber_confirmation_token tokens0 sid with
      | none => ⟨500, subs0, tokens0, [.insertSubscriberE, .getTokenE]⟩
      | some stored_token =>
        subscribeFinish env subs0 tokens0 ins.2 tokens0 form stored_token
          [.insertSubscriberE, .getTokenE]

/-! ## Confirmation (src/routes/subscriptions_confirm.rs) -/

/-- Result of one confirm request: HTTP status and the committed tables. -/
structure ConfirmOutcome where
  status : Nat
  subs : List SubRow
  tokens : List (Str × Nat)
deriving DecidableEq

/-- src/routes/subscriptions_confirm.rs:
`delete_possible_pending_subscriber_confirmation` — `DELETE ... WHERE
subscription_token = $1 RETURNING subscriber_id`, `fetch_optional`: the
subscriber id of the first matching row (if any) and the table with every
matching row removed. -/
def delete_possible_pending_subscriber_confirmation
    (tokens : List (Str × Nat)) (subscription_token : SubscriptionToken) :
    Option Nat × List (Str × Nat) :=
  ((tokens.find? (fun p => p.1 == subscription_token.val)).map (fun p => p.2),
   tokens.filter (fun p => !(p.1 == subscription_token.val)))

/-- src/routes/subscriptions_confirm.rs: `confirm_subscriber` — `UPDATE
subscriptions SET status = confirmed WHERE id = $1`. -/
def confirm_subscriber (subs : List SubRow) (subscriber_id : Nat) :
    List SubRow :=
  subs.map (fun r =>
    if r.id == subscriber_id then { r with status := .confirmed } else r)

/-- src/routes/subscriptions_confirm.rs: `confirm` — parse the token (400 on
failure), atomically delete its row returning the subscriber id (401 when no
row matched, transaction dropped), mark the subscriber confirmed, commit. -/
def confirm (subs0 : List SubRow) (tokens0 : List (Str × Nat)) (raw : Str) :
    ConfirmOutcome :=
  match SubscriptionToken.parse raw with
  | .error _ => ⟨400, subs0, tokens0⟩
  | .ok subscription_token =>
    let del :=
      delete_possible_pending_subscriber_confirmation tokens0
        subscription_token
    match del.1 with
    | none => ⟨401, subs0, tokens0⟩
    | some subscriber_id =>
      ⟨200, confirm_subscriber subs0 subscriber_id, del.2⟩

/-! ## Collaborator registration (src/routes/collaborator/post.rs) -/

/-- src/user_role.rs: the role column of the users table. -/
inductive UserRole where
  | admin
  | collaborator
deriving DecidableEq

/-- One row of the users table. -/
structure UserRow where
  user_id : Nat
  username : Str
  password_hash : Str
  role : UserRole
deriving DecidableEq

/-- src/routes/collaborator/post.rs: `remove_invitation_token` — `DELETE ...
WHERE invitation_token = $1 AND validation_code = $2 RETURNING 1`,
`fetch_optional ... is_some`: whether a row matched the pair, and the table
with every matching row removed. -/
def remove_invitation_token (inv_tokens : List (Str × Str))
    (invitation_token : InvitationToken) (validation_code : ValidationCode) :
    Bool × List (Str × Str) :=
  ((inv_tokens.find? (fun p =>
      p.1 == invitation_token.val.val && p.2 == validation_code.val)).isSome,
   inv_tokens.filter (fun p =>
      !(p.1 == invitation_token.val.val && p.2 == validation_code.val)))

/-- src/routes/collaborator/post.rs: `insert_collaborator` — insert the user
row with role collaborator; a username uniqueness violation is absorbed into
`false`. -/
def insert_collaborator (users : List UserRow) (user_id : Nat)
    (username : Str) (password_hash : Str) : Bool × List UserRow :=
  if users.any (fun u => u.username == username) then
    (false, users)
  else
    (true, users ++ [⟨user_id, username, password_hash, .collaborator⟩])

/-- src/routes/collaborator/post.rs: the registration form. -/
structure RegisterFormData where
  invitation_token : Str
  validation_code : Str
  username : Str
  password : Str
deriving DecidableEq

/-- Result of one registration request: HTTP status (400 bad token or code,
303 redirect on weak password or taken username, 401 unauthorized, 200
success) and the committed tables. -/
structure RegisterOutcome where
  status : Nat
  inv_tokens : List (Str × Str)
  users : List UserRow
deriving DecidableEq

/-- src/routes/collaborator/post.rs: `register_collaborator` — parse the
invitation token then the validation code (400 on failure), check the
password byte length is within 8..=64 (303 redirect otherwise), delete the
(token, code) pair (401 when no row matched, transaction dropped), insert the
user row (303 redirect and transaction dropped on a taken username), commit.
The password hasher is an external collaborator. -/
def register_collaborator (hash : Str → Str) (inv_tokens0 : List (Str × Str))
    (users0 : List UserRow) (form : RegisterFormData) (user_id : Nat) :
    RegisterOutcome :=
  match InvitationToken.parse form.invitation_token with
  | .error _ => ⟨400, inv_tokens0, users0⟩
  | .ok invitation_token =>
    match ValidationCode.parse form.validation_code with
    | .error _ => ⟨400, inv_tokens0, users0⟩
    | .ok validation_code =>
      if !(8 ≤ utf8Len form.password && utf8Len form.password ≤ 64) then
        ⟨303, inv_tokens0, users0⟩
      else
        let password_hash := hash form.password
        let rem :=
          remove_invitation_token inv_tokens0 invitation_token validation_code
        if !rem.1 then
          ⟨401, inv_tokens0, users0⟩
        else
          let ins :=
            insert_collaborator users0 user_id form.username password_hash
          if !ins.1 then
            ⟨303, inv_tokens0, users0⟩
          else
            ⟨200, rem.2, ins.2⟩

/-! ## Theorems -/

/-- C9: `SubscriberName::parse(s)` succeeds if and only if s is non-empty
after trimming whitespace, contains at most 256 grapheme clusters (counted on
the extended grapheme segmentation, not bytes or codepoints), and contains
none of the characters / ( ) " < > \ {{ }}; each of the three failure causes
returns its own distinct error variant (Empty, TooLong, InvalidCharacters),
checked in that order. -/
theorem subscriber_name_parse_characterisation (s : GStr) :
    (SubscriberName.parse s = .ok ⟨s⟩ ↔
      ((rustTrim s.chars).isEmpty = false ∧ s.graphemes.length ≤ 256 ∧
        ∀ c ∈ s.chars, c ∉ FORBIDDEN_CHARS)) ∧
    ((rustTrim s.chars).isEmpty = true →
      SubscriberName.parse s = .error .Empty) ∧
    ((rustTrim s.chars).isEmpty = false → 256 < s.graphemes.length →
      SubscriberName.parse s = .error .TooLong) ∧
    ((rustTrim s.chars).isEmpty = false → s.graphemes.length ≤ 256 →
      (∃ c ∈ s.chars, c ∈ FORBIDDEN_CHARS) →
      SubscriberName.parse s = .error .InvalidCharacters) := by
  have hdrop : (s.graphemes.drop 256).isEmpty = true ↔
      s.graphemes.length ≤ 256 := by
    simp [List.isEmpty_iff, List.drop_eq_nil_iff]
  have hany : s.chars.any (fun g => FORBIDDEN_CHARS.contains g) = true ↔
      ∃ c ∈ s.chars, c ∈ FORBIDDEN_CHARS := by
    simp [List.any_eq_true]
  refine ⟨?_, ?_, ?_, ?_⟩
  · by_cases h1 : (rustTrim s.chars).isEmpty <;>
      by_cases h2 : (s.graphemes.drop 256).isEmpty <;>
      by_cases h3 : s.chars.any (fun g => FORBIDDEN_CHARS.contains g) <;>
      simp_all [SubscriberName.parse]
  · intro h1
    simp [SubscriberName.parse, h1]
  · intro h1 h2
    have h2' : (s.graphemes.drop 256).isEmpty = false := by
      cases h : (s.graphemes.drop 256).isEmpty
      · rfl
      · exact absurd (hdrop.mp h) (by omega)
    simp [SubscriberName.parse, h1, h2']
  · intro h1 h2 h3
    have h2' : (s.graphemes.drop 256).isEmpty = true := hdrop.mpr h2
    have h3' : s.chars.any (fun g => FORBIDDEN_CHARS.contains g) = true :=
      hany.mpr h3
    simp only [SubscriberName.parse, h1, h2', h3', Bool.not_true,
      Bool.false_eq_true, if_false, if_true]

set_option maxRecDepth 8000 in
/-- Witness for C9: a name of a single plain grapheme parses, the all-blank
name is Empty, a 257-grapheme name is TooLong, and a name holding a slash is
InvalidCharacters. -/
theorem subscriber_name_parse_characterisation_witness :
    SubscriberName.parse ⟨[['F']]⟩ = .ok ⟨⟨[['F']]⟩⟩ ∧
    SubscriberName.parse ⟨[[' ']]⟩ = .error .Empty ∧
    SubscriberName.parse ⟨List.replicate 257 ['a']⟩ = .error .TooLong ∧
    SubscriberName.parse ⟨[['a'], ['/']]⟩ = .error .InvalidCharacters := by
  refine ⟨?_, ?_, ?_, ?_⟩
  · exact (subscriber_name_parse_characterisation ⟨[['F']]⟩).1.mpr
      (by decide)
  · exact (subscriber_name_parse_characterisation ⟨[[' ']]⟩).2.1
      (by decide)
  · exact (subscriber_name_parse_characterisation
      ⟨List.replicate 257 ['a']⟩).2.2.1 (by decide) (by simp)
  · exact (subscriber_name_parse_characterisation ⟨[['a'], ['/']]⟩).2.2.2
      (by decide) (by decide) (by decide)

/-- Structure eta for subscription rows: rewriting the status column to its
own current value leaves the row unchanged. -/
lemma subRow_rewrite_status (r : SubRow) :
    ({ r with status := r.status } : SubRow) = r := rfl

/-- `insert_susbscriber` on a conflicting email: the stored row is returned
and the table is unchanged. -/
lemma insert_susbscriber_conflict (subs : List SubRow) (row : SubRow)
    (subscriber_id : Nat) (new_subscriber : NewSubscriber) (now : Nat)
    (hfind : subs.find? (fun r => r.email == new_subscriber.email.val) =
      some row)
    (hne : row.id ≠ subscriber_id) :
    insert_susbscriber subs subscriber_id new_subscriber now =
      ((if row.status = .pending_confirmation then
          SubscriptionState.Pending row.id
        else SubscriptionState.Confirmed), subs) := by
  unfold insert_susbscriber upsertSubscription
  dsimp only
  rw [hfind]
  dsimp only
  have hmap : subs.map (fun r =>
      if r.email == new_subscriber.email.val then
        { r with status := r.status } else r) = subs.map id := by
    refine List.map_congr_left (fun a _ => ?_)
    by_cases h : a.email == new_subscriber.email.val <;>
      simp [h, subRow_rewrite_status]
  rw [if_neg (fun h => hne h.symm), hmap, List.map_id]

/-- `insert_susbscriber` on a fresh email: the new pending row is appended
and `Inserted` returned. -/
lemma insert_susbscriber_fresh (subs : List SubRow) (subscriber_id : Nat)
    (new_subscriber : NewSubscriber) (now : Nat)
    (hfind : subs.find? (fun r => r.email == new_subscriber.email.val) =
      none) :
    insert_susbscriber subs subscriber_id new_subscriber now =
      (SubscriptionState.Inserted subscriber_id,
        subs ++ [⟨subscriber_id, new_subscriber.email.val,
          new_subscriber.name.val, now, .pending_confirmation⟩]) := by
  unfold insert_susbscriber upsertSubscription
  dsimp only
  rw [hfind]
  dsimp only
  rw [if_pos rfl]

/-- C6: when the subscribe upsert hits an existing email, the stored row
keeps every stored column (status, name, subscribed_at — the new form's name
does not overwrite the old one), and `insert_susbscriber` returns
`Pending(existing_id)` when the stored status is pending_confirmation and
`Confirmed` otherwise, as a success value rather than a uniqueness error. -/
theorem insert_susbscriber_existing_email_untouched (subs : List SubRow)
    (row : SubRow) (subscriber_id : Nat) (new_subscriber : NewSubscriber)
    (now : Nat)
    (hfind : subs.find? (fun r => r.email == new_subscriber.email.val) =
      some row)
    (hfresh : ∀ r ∈ subs, r.id ≠ subscriber_id) :
    (insert_susbscriber subs subscriber_id new_subscriber now).2 = subs ∧
    (insert_susbscriber subs subscriber_id new_subscriber now).1 =
      (if row.status = .pending_confirmation then
        SubscriptionState.Pending row.id
      else SubscriptionState.Confirmed) := by
  have hmem : row ∈ subs := List.mem_of_find?_eq_some hfind
  rw [insert_susbscriber_conflict subs row subscriber_id new_subscriber now
    hfind (hfresh row hmem)]
  exact ⟨rfl, rfl⟩

/-- Witness for C6: a table holding one confirmed row with the requested
email is untouched and the upsert reports `Confirmed`. -/
theorem insert_susbscriber_existing_email_untouched_witness :
    (insert_susbscriber [⟨1, ['a'], ⟨[['n']]⟩, 0, .confirmed⟩] 2
      ⟨⟨['a']⟩, ⟨⟨[['m']]⟩⟩⟩ 5).2 =
        [⟨1, ['a'], ⟨[['n']]⟩, 0, .confirmed⟩] ∧
    (insert_susbscriber [⟨1, ['a'], ⟨[['n']]⟩, 0, .confirmed⟩] 2
      ⟨⟨['a']⟩, ⟨⟨[['m']]⟩⟩⟩ 5).1 = SubscriptionState.Confirmed := by
  have h := insert_susbscriber_existing_email_untouched
    [⟨1, ['a'], ⟨[['n']]⟩, 0, .confirmed⟩] ⟨1, ['a'], ⟨[['n']]⟩, 0, .confirmed⟩
    2 ⟨⟨['a']⟩, ⟨⟨[['m']]⟩⟩⟩ 5 (by decide) (by decide)
  refine ⟨h.1, ?_⟩
  rw [h.2]
  decide

/-- Reduction of the subscribe form parse on a valid email and name. -/
lemma newSubscriberTryFrom_ok (validate : Str → Bool)
    (form : SubscribeFormData) (hvalid : validate form.email = true)
    (hname : SubscriberName.parse form.name = .ok ⟨form.name⟩) :
    newSubscriberTryFrom validate form = .ok ⟨⟨form.email⟩, ⟨form.name⟩⟩ := by
  unfold newSubscriberTryFrom Email.parse
  rw [if_pos hvalid, hname]

/-- C7: a subscribe request whose email belongs to an already-confirmed
subscriber is refused with 406, the tables stay as they were, and no
confirmation email is sent — the handler errors on the Confirmed branch
before any call to send_confirmation_email. -/
theorem subscribe_confirmed_email_refused_406 (env : SubscribeEnv)
    (subs0 : List SubRow) (tokens0 : List (Str × Nat))
    (form : SubscribeFormData) (row : SubRow) (subscriber_id : Nat)
    (fresh_token : Str) (now : Nat)
    (hvalid : env.validate_email form.email = true)
    (hname : SubscriberName.parse form.name = .ok ⟨form.name⟩)
    (hfind : subs0.find? (fun r => r.email == form.email) = some row)
    (hconf : row.status = .confirmed)
    (hfresh : ∀ r ∈ subs0, r.id ≠ subscriber_id) :
    subscribe env subs0 tokens0 form subscriber_id fresh_token now =
      ⟨406, subs0, tokens0, [.insertSubscriberE]⟩ ∧
    ∀ recipient token, SubEffect.sendConfirmationE recipient token ∉
      (subscribe env subs0 tokens0 form subscriber_id fresh_token now).trace := by
  have hmem : row ∈ subs0 := List.mem_of_find?_eq_some hfind
  have heq : subscribe env subs0 tokens0 form subscriber_id fresh_token now =
      ⟨406, subs0, tokens0, [.insertSubscriberE]⟩ := by
    unfold subscribe
    rw [newSubscriberTryFrom_ok env.validate_email form hvalid hname]
    dsimp only
    rw [insert_susbscriber_conflict subs0 row subscriber_id
      ⟨⟨form.email⟩, ⟨form.name⟩⟩ now hfind (hfresh row hmem)]
    rw [hconf]
    simp
  refine ⟨heq, ?_⟩
  rw [heq]
  intro recipient token
  simp

/-- Witness for C7: subscribing again with the email of the lone confirmed
subscriber is refused with 406 and sends nothing. -/
theorem subscribe_confirmed_email_refused_406_witness :
    subscribe ⟨fun _ => true, true, true⟩
      [⟨1, ['a'], ⟨[['n']]⟩, 0, .confirmed⟩] [] ⟨['a'], ⟨[['n']]⟩⟩ 2 ['t'] 9 =
      ⟨406, [⟨1, ['a'], ⟨[['n']]⟩, 0, .confirmed⟩], [],
        [.insertSubscriberE]⟩ :=
  (subscribe_confirmed_email_refused_406 ⟨fun _ => true, true, true⟩
    [⟨1, ['a'], ⟨[['n']]⟩, 0, .confirmed⟩] [] ⟨['a'], ⟨[['n']]⟩⟩
    ⟨1, ['a'], ⟨[['n']]⟩, 0, .confirmed⟩ 2 ['t'] 9 (by decide) (by decide)
    (by decide) (by decide) (by decide)).1

/-- On a failing template rendering or a failing confirmation email, the
tail of the subscribe handler never commits and leaves the committed tables
unchanged. -/
lemma subscribeFinish_no_commit (env : SubscribeEnv) (subs0 : List SubRow)
    (tokens0 : List (Str × Nat)) (subs1 : List SubRow)
    (tokens1 : List (Str × Nat)) (form : SubscribeFormData)
    (subscription_token : Str) (tr : List SubEffect)
    (htr : SubEffect.commitE ∉ tr)
    (hfail : env.templateOk = false ∨ env.sendOk = false) :
    SubEffect.commitE ∉ (subscribeFinish env subs0 tokens0 subs1 tokens1
      form subscription_token tr).trace ∧
    (subscribeFinish env subs0 tokens0 subs1 tokens1 form subscription_token
      tr).subs = subs0 ∧
    (subscribeFinish env subs0 tokens0 subs1 tokens1 form subscription_token
      tr).tokens = tokens0 := by
  unfold subscribeFinish
  rcases hfail with h | h
  · simp [h, htr]
  · by_cases ht : env.templateOk <;> simp [h, ht, htr]

/-- C10: the subscribe transaction is committed only after the confirmation
email dispatch succeeds — when template rendering or dispatch fails, commit
is never reached and neither a subscriber row nor a token row from this
request becomes durably visible. -/
theorem subscribe_atomic_wrt_email_failure (env : SubscribeEnv)
    (subs0 : List SubRow) (tokens0 : List (Str × Nat))
    (form : SubscribeFormData) (subscriber_id : Nat) (fresh_token : Str)
    (now : Nat) (hfail : env.templateOk = false ∨ env.sendOk = false) :
    SubEffect.commitE ∉
      (subscribe env subs0 tokens0 form subscriber_id fresh_token now).trace ∧
    (subscribe env subs0 tokens0 form subscriber_id fresh_token now).subs =
      subs0 ∧
    (subscribe env subs0 tokens0 form subscriber_id fresh_token now).tokens =
      tokens0 := by
  unfold subscribe
  split
  · simp
  · dsimp only
    split
    · simp
    · exact subscribeFinish_no_commit env subs0 tokens0 _ _ form _ _
        (by decide) hfail
    · split
      · simp
      · exact subscribeFinish_no_commit env subs0 tokens0 _ _ form _ _
          (by decide) hfail

/-- Witness for C10: with a failing email gateway the subscribe request
answers without committing and the tables stay empty. -/
theorem subscribe_atomic_wrt_email_failure_witness :
    SubEffect.commitE ∉
      (subscribe ⟨fun _ => true, true, false⟩ [] [] ⟨['a'], ⟨[['n']]⟩⟩ 1
        ['t'] 0).trace ∧
    (subscribe ⟨fun _ => true, true, false⟩ [] [] ⟨['a'], ⟨[['n']]⟩⟩ 1
      ['t'] 0).subs = [] ∧
    (subscribe ⟨fun _ => true, true, false⟩ [] [] ⟨['a'], ⟨[['n']]⟩⟩ 1
      ['t'] 0).tokens = [] :=
  subscribe_atomic_wrt_email_failure ⟨fun _ => true, true, false⟩ [] []
    ⟨['a'], ⟨[['n']]⟩⟩ 1 ['t'] 0 (Or.inr rfl)

/-- C5: subscribe is idempotent before confirmation — a second identical
subscribe request on a fresh email leaves exactly one subscriber row for
that email and exactly the token table of the first request (one token row
for the new subscriber): the Pending branch re-fetches the stored token via
get_subscriber_confirmation_token, never calls store_token, and resends the
original token. -/
theorem subscribe_idempotent_before_confirmation (env : SubscribeEnv)
    (subs0 : List SubRow) (tokens0 : List (Str × Nat))
    (form : SubscribeFormData) (id1 : Nat) (tok1 : Str) (now1 : Nat)
    (id2 : Nat) (tok2 : Str) (now2 : Nat)
    (htpl : env.templateOk = true) (hsend : env.sendOk = true)
    (hvalid : env.validate_email form.email = true)
    (hname : SubscriberName.parse form.name = .ok ⟨form.name⟩)
    (habsent : subs0.find? (fun r => r.email == form.email) = none)
    (htok0 : ∀ p ∈ tokens0, p.2 ≠ id1)
    (hid : id2 ≠ id1) :
    (subscribe env subs0 tokens0 form id1 tok1 now1).status = 200 ∧
    (subscribe env
      (subscribe env subs0 tokens0 form id1 tok1 now1).subs
      (subscribe env subs0 tokens0 form id1 tok1 now1).tokens
      form id2 tok2 now2).status = 200 ∧
    (subscribe env
      (subscribe env subs0 tokens0 form id1 tok1 now1).subs
      (subscribe env subs0 tokens0 form id1 tok1 now1).tokens
      form id2 tok2 now2).subs.countP (fun r => r.email == form.email) = 1 ∧
    (subscribe env
      (subscribe env subs0 tokens0 form id1 tok1 now1).subs
      (subscribe env subs0 tokens0 form id1 tok1 now1).tokens
      form id2 tok2 now2).tokens =
      (subscribe env subs0 tokens0 form id1 tok1 now1).tokens ∧
    (subscribe env
      (subscribe env subs0 tokens0 form id1 tok1 now1).subs
      (subscribe env subs0 tokens0 form id1 tok1 now1).tokens
      form id2 tok2 now2).tokens.countP (fun p => p.2 == id1) = 1 ∧
    SubEffect.storeTokenE ∉ (subscribe env
      (subscribe env subs0 tokens0 form id1 tok1 now1).subs
      (subscribe env subs0 tokens0 form id1 tok1 now1).tokens
      form id2 tok2 now2).trace ∧
    SubEffect.getTokenE ∈ (subscribe env
      (subscribe env subs0 tokens0 form id1 tok1 now1).subs
      (subscribe env subs0 tokens0 form id1 tok1 now1).tokens
      form id2 tok2 now2).trace ∧
    SubEffect.sendConfirmationE form.email tok1 ∈ (subscribe env
      (subscribe env subs0 tokens0 form id1 tok1 now1).subs
      (subscribe env subs0 tokens0 form id1 tok1 now1).tokens
      form id2 tok2 now2).trace := by
  have hrow : (⟨id1, form.email, form.name, now1, .pending_confirmation⟩ :
      SubRow).email == form.email := by simp
  have ho1 : subscribe env subs0 tokens0 form id1 tok1 now1 =
      ⟨200, subs0 ++ [⟨id1, form.email, form.name, now1,
          .pending_confirmation⟩],
        tokens0 ++ [(tok1, id1)],
        [.insertSubscriberE, .storeTokenE,
          .sendConfirmationE form.email tok1, .commitE]⟩ := by
    unfold subscribe
    rw [newSubscriberTryFrom_ok env.validate_email form hvalid hname]
    dsimp only
    rw [insert_susbscriber_fresh subs0 id1 ⟨⟨form.email⟩, ⟨form.name⟩⟩ now1
      habsent]
    dsimp only
    unfold subscribeFinish store_token
    simp [htpl, hsend]
  have hfind2 : (subs0 ++ [(⟨id1, form.email, form.name, now1,
      .pending_confirmation⟩ : SubRow)]).find?
      (fun r => r.email == form.email) =
      some ⟨id1, form.email, form.name, now1, .pending_confirmation⟩ := by
    rw [List.find?_append, habsent]
    simp
  have hgettok : get_subscriber_confirmation_token (tokens0 ++ [(tok1, id1)])
      id1 = some tok1 := by
    unfold get_subscriber_confirmation_token
    rw [List.find?_append, List.find?_eq_none.mpr
      (fun p hp => by simpa using htok0 p hp)]
    simp
  have ho2 : subscribe env
      (subs0 ++ [⟨id1, form.email, form.name, now1, .pending_confirmation⟩])
      (tokens0 ++ [(tok1, id1)]) form id2 tok2 now2 =
      ⟨200, subs0 ++ [⟨id1, form.email, form.name, now1,
          .pending_confirmation⟩],
        tokens0 ++ [(tok1, id1)],
        [.insertSubscriberE, .getTokenE,
          .sendConfirmationE form.email tok1, .commitE]⟩ := by
    unfold subscribe
    rw [newSubscriberTryFrom_ok env.validate_email form hvalid hname]
    dsimp only
    rw [insert_susbscriber_conflict
      (subs0 ++ [(⟨id1, form.email, form.name, now1,
        .pending_confirmation⟩ : SubRow)])
      (⟨id1, form.email, form.name, now1, .pending_confirmation⟩ : SubRow) id2
      ⟨⟨form.email⟩, ⟨form.name⟩⟩ now2 hfind2 (fun h => hid h.symm)]
    dsimp only
    rw [if_pos rfl]
    dsimp only
    rw [hgettok]
    dsimp only
    unfold subscribeFinish
    simp [htpl, hsend]
  have hcount0 : subs0.countP (fun r => r.email == form.email) = 0 :=
    List.countP_eq_zero.mpr (List.find?_eq_none.mp habsent)
  have hcountTok0 : tokens0.countP (fun p => p.2 == id1) = 0 :=
    List.countP_eq_zero.mpr (fun p hp => by simpa using htok0 p hp)
  rw [ho1]
  dsimp only
  rw [ho2]
  refine ⟨rfl, rfl, ?_, rfl, ?_, ?_, ?_, ?_⟩
  · dsimp only
    rw [List.countP_append, hcount0]
    simp
  · dsimp only
    rw [List.countP_append, hcountTok0]
    simp
  · simp
  · simp
  · simp

/-- Witness for C5: on empty tables, subscribing twice with the same payload
leaves one subscriber row for the email, one token row, and the second
request never stores a token. -/
theorem subscribe_idempotent_before_confirmation_witness :
    (subscribe ⟨fun _ => true, true, true⟩
      (subscribe ⟨fun _ => true, true, true⟩ [] [] ⟨['a'], ⟨[['n']]⟩⟩ 1
        ['t'] 0).subs
      (subscribe ⟨fun _ => true, true, true⟩ [] [] ⟨['a'], ⟨[['n']]⟩⟩ 1
        ['t'] 0).tokens
      ⟨['a'], ⟨[['n']]⟩⟩ 2 ['u'] 3).subs.countP
        (fun r => r.email == ['a']) = 1 ∧
    (subscribe ⟨fun _ => true, true, true⟩
      (subscribe ⟨fun _ => true, true, true⟩ [] [] ⟨['a'], ⟨[['n']]⟩⟩ 1
        ['t'] 0).subs
      (subscribe ⟨fun _ => true, true, true⟩ [] [] ⟨['a'], ⟨[['n']]⟩⟩ 1
        ['t'] 0).tokens
      ⟨['a'], ⟨[['n']]⟩⟩ 2 ['u'] 3).tokens.countP
        (fun p => p.2 == 1) = 1 ∧
    SubEffect.storeTokenE ∉ (subscribe ⟨fun _ => true, true, true⟩
      (subscribe ⟨fun _ => true, true, true⟩ [] [] ⟨['a'], ⟨[['n']]⟩⟩ 1
        ['t'] 0).subs
      (subscribe ⟨fun _ => true, true, true⟩ [] [] ⟨['a'], ⟨[['n']]⟩⟩ 1
        ['t'] 0).tokens
      ⟨['a'], ⟨[['n']]⟩⟩ 2 ['u'] 3).trace := by
  have h := subscribe_idempotent_before_confirmation
    ⟨fun _ => true, true, true⟩ [] [] ⟨['a'], ⟨[['n']]⟩⟩ 1 ['t'] 0 2 ['u'] 3
    rfl rfl rfl (by decide) (by decide) (by intro p hp; cases hp) (by decide)
  exact ⟨h.2.2.1, h.2.2.2.2.1, h.2.2.2.2.2.1⟩

/-- C4: confirmation is single-use — with a well-formed token whose row is
stored, the confirm operation deletes the token row (returning the
associated subscriber id, which is then marked confirmed), afterwards no row
for that token remains, and a second request with the same token fails with
401 leaving the tables unchanged. -/
theorem confirm_single_use (subs0 : List SubRow)
    (tokens0 : List (Str × Nat)) (raw : Str) (sid : Nat)
    (hparse : SubscriptionToken.parse raw = .ok ⟨raw⟩)
    (hfind : tokens0.find? (fun p => p.1 == raw) = some (raw, sid)) :
    confirm subs0 tokens0 raw =
      ⟨200, confirm_subscriber subs0 sid,
        tokens0.filter (fun p => !(p.1 == raw))⟩ ∧
    (confirm subs0 tokens0 raw).tokens.find? (fun p => p.1 == raw) = none ∧
    confirm (confirm subs0 tokens0 raw).subs (confirm subs0 tokens0 raw).tokens
      raw =
      ⟨401, (confirm subs0 tokens0 raw).subs,
        (confirm subs0 tokens0 raw).tokens⟩ := by
  have h1 : confirm subs0 tokens0 raw =
      ⟨200, confirm_subscriber subs0 sid,
        tokens0.filter (fun p => !(p.1 == raw))⟩ := by
    unfold confirm delete_possible_pending_subscriber_confirmation
    rw [hparse]
    dsimp only
    rw [hfind]
    rfl
  have hnone : (tokens0.filter (fun p => !(p.1 == raw))).find?
      (fun p => p.1 == raw) = none := by
    rw [List.find?_eq_none]
    intro p hp
    have h := (List.mem_filter.mp hp).2
    simp only [Bool.not_eq_true'] at h
    simp [h]
  have h2 : confirm (confirm_subscriber subs0 sid)
      (tokens0.filter (fun p => !(p.1 == raw))) raw =
      ⟨401, confirm_subscriber subs0 sid,
        tokens0.filter (fun p => !(p.1 == raw))⟩ := by
    unfold confirm delete_possible_pending_subscriber_confirmation
    rw [hparse]
    dsimp only
    rw [hnone]
    rfl
  rw [h1]
  exact ⟨rfl, hnone, h2⟩

/-- Witness for C4: one stored token row; the first confirm answers 200 and
consumes the row, the second answers 401. -/
theorem confirm_single_use_witness :
    confirm [⟨5, ['e'], ⟨[['n']]⟩, 0, .pending_confirmation⟩]
      [(List.replicate 30 'a', 5)] (List.replicate 30 'a') =
      ⟨200, [⟨5, ['e'], ⟨[['n']]⟩, 0, .confirmed⟩], []⟩ ∧
    confirm [⟨5, ['e'], ⟨[['n']]⟩, 0, .confirmed⟩] []
      (List.replicate 30 'a') =
      ⟨401, [⟨5, ['e'], ⟨[['n']]⟩, 0, .confirmed⟩], []⟩ := by
  have h := confirm_single_use
    [⟨5, ['e'], ⟨[['n']]⟩, 0, .pending_confirmation⟩]
    [(List.replicate 30 'a', 5)] (List.replicate 30 'a') 5
    (by decide) (by decide)
  refine ⟨?_, ?_⟩
  · rw [h.1]
    decide
  · have h2 := h.2.2
    rw [h.1] at h2
    simpa using h2

/-- C8: collaborator registration succeeds only when the presented
(invitation token, validation code) pair matches a stored row: a matching
pair is deleted as one row together with the user insert in one transaction,
while a non-matching pair fails with 401 and inserts no user row. -/
theorem register_collaborator_requires_matching_pair (hash : Str → Str)
    (inv_tokens0 : List (Str × Str)) (users0 : List UserRow)
    (form : RegisterFormData) (user_id : Nat)
    (htok : InvitationToken.parse form.invitation_token =
      .ok ⟨⟨form.invitation_token⟩⟩)
    (hcode : ValidationCode.parse form.validation_code =
      .ok ⟨form.validation_code⟩)
    (hpw : 8 ≤ utf8Len form.password ∧ utf8Len form.password ≤ 64) :
    (inv_tokens0.find? (fun p =>
        p.1 == form.invitation_token && p.2 == form.validation_code) =
          none →
      register_collaborator hash inv_tokens0 users0 form user_id =
        ⟨401, inv_tokens0, users0⟩) ∧
    (∀ pr, inv_tokens0.find? (fun p =>
        p.1 == form.invitation_token && p.2 == form.validation_code) =
          some pr →
      users0.any (fun u => u.username == form.username) = false →
      register_collaborator hash inv_tokens0 users0 form user_id =
        ⟨200,
          inv_tokens0.filter (fun p =>
            !(p.1 == form.invitation_token && p.2 == form.validation_code)),
          users0 ++ [⟨user_id, form.username, hash form.password,
            .collaborator⟩]⟩ ∧
      (register_collaborator hash inv_tokens0 users0 form
          user_id).inv_tokens.find? (fun p =>
        p.1 == form.invitation_token && p.2 == form.validation_code) =
          none) := by
  constructor
  · intro hnone
    unfold register_collaborator
    rw [htok]
    dsimp only
    rw [hcode]
    dsimp only
    rw [if_neg (by simp [hpw.1, hpw.2])]
    unfold remove_invitation_token
    rw [hnone]
    rfl
  · intro pr hsome huser
    have heq : register_collaborator hash inv_tokens0 users0 form user_id =
        ⟨200,
          inv_tokens0.filter (fun p =>
            !(p.1 == form.invitation_token && p.2 == form.validation_code)),
          users0 ++ [⟨user_id, form.username, hash form.password,
            .collaborator⟩]⟩ := by
      unfold register_collaborator
      rw [htok]
      dsimp only
      rw [hcode]
      dsimp only
      rw [if_neg (by simp [hpw.1, hpw.2])]
      unfold remove_invitation_token insert_collaborator
      rw [hsome, huser]
      rfl
    refine ⟨heq, ?_⟩
    rw [heq]
    dsimp only
    rw [List.find?_eq_none]
    intro p hp
    have h := (List.mem_filter.mp hp).2
    simp only [Bool.not_eq_true'] at h
    simp [h]

/-- Witness for C8: a stored pair with a different validation code refuses
registration with 401 and leaves the user table empty; the exact pair
registers and consumes the row. -/
theorem register_collaborator_requires_matching_pair_witness :
    register_collaborator (fun p => p)
      [(List.replicate 30 'a', ['1', '1', '1', '1', '1', '1'])] []
      ⟨List.replicate 30 'a', ['2', '2', '2', '2', '2', '2'], ['u'],
        List.replicate 8 'p'⟩ 3 =
      ⟨401, [(List.replicate 30 'a', ['1', '1', '1', '1', '1', '1'])], []⟩ ∧
    register_collaborator (fun p => p)
      [(List.replicate 30 'a', ['1', '1', '1', '1', '1', '1'])] []
      ⟨List.replicate 30 'a', ['1', '1', '1', '1', '1', '1'], ['u'],
        List.replicate 8 'p'⟩ 3 =
      ⟨200, [], [⟨3, ['u'], List.replicate 8 'p', .collaborator⟩]⟩ := by
  constructor
  · exact (register_collaborator_requires_matching_pair (fun p => p)
      [(List.replicate 30 'a', ['1', '1', '1', '1', '1', '1'])] []
      ⟨List.replicate 30 'a', ['2', '2', '2', '2', '2', '2'], ['u'],
        List.replicate 8 'p'⟩ 3 (by decide) (by decide)
      (by decide)).1 (by decide)
  · have h := (register_collaborator_requires_matching_pair (fun p => p)
      [(List.replicate 30 'a', ['1', '1', '1', '1', '1', '1'])] []
      ⟨List.replicate 30 'a', ['1', '1', '1', '1', '1', '1'], ['u'],
        List.replicate 8 'p'⟩ 3 (by decide) (by decide)
      (by decide)).2
      (List.replicate 30 'a', ['1', '1', '1', '1', '1', '1'])
      (by decide) (by decide)
    rw [h.1]
    simp

/-- After `save_response` the committed row for the key carries the saved
response. -/
lemma idemLookup_save_response (db : IdemDb) (key : IdempotencyKey)
    (user_id : Nat) (response : HttpResp) :
    idemLookup (save_response db key user_id response) user_id key.val =
      some (some response) := by
  unfold save_response idemLookup
  simp [List.find?_cons]

/-- A publish attempt that finds a cached response replays it and makes no
further calls. -/
lemma publish_replay (env : PublishEnv) (db : IdemDb) (user_id : Nat)
    (form : PublishFormData) (key : IdempotencyKey) (saved : HttpResp)
    (hk : IdempotencyKey.tryFrom form.idempotency_key = .ok key)
    (hc : idemLookup db user_id key.val = some (some saved)) :
    publish_newsletter env db user_id form =
      ⟨.ok saved, db, [.fetchSubscribers, .tryProcessingE]⟩ := by
  unfold publish_newsletter try_processing
  rw [hk]
  dsimp only
  rw [hc]

/-- A fresh publish attempt whose dispatch loop succeeds saves and returns
the redirect. -/
lemma publish_fresh_success (env : PublishEnv) (db : IdemDb) (user_id : Nat)
    (form : PublishFormData) (key : IdempotencyKey)
    (hk : IdempotencyKey.tryFrom form.idempotency_key = .ok key)
    (h0 : idemLookup db user_id key.val = none)
    (hok : (sendLoop env (get_confirmed_subscribers env)).2 = true) :
    publish_newsletter env db user_id form =
      ⟨.ok (see_other adminNewslettersPath),
        save_response db key user_id (see_other adminNewslettersPath),
        ([PubEffect.fetchSubscribers, PubEffect.tryProcessingE] ++
          (sendLoop env (get_confirmed_subscribers env)).1.map
            PubEffect.sendEmail) ++ [.saveResponseE]⟩ := by
  unfold publish_newsletter try_processing
  rw [hk]
  dsimp only
  rw [h0]
  dsimp only
  rw [hok]
  simp

/-- A fresh publish attempt whose dispatch loop fails aborts with 500 and
commits nothing. -/
lemma publish_fresh_fail (env : PublishEnv) (db : IdemDb) (user_id : Nat)
    (form : PublishFormData) (key : IdempotencyKey)
    (hk : IdempotencyKey.tryFrom form.idempotency_key = .ok key)
    (h0 : idemLookup db user_id key.val = none)
    (hbad : (sendLoop env (get_confirmed_subscribers env)).2 = false) :
    publish_newsletter env db user_id form =
      ⟨.error 500, db,
        [PubEffect.fetchSubscribers, PubEffect.tryProcessingE] ++
          (sendLoop env (get_confirmed_subscribers env)).1.map
            PubEffect.sendEmail⟩ := by
  unfold publish_newsletter try_processing
  rw [hk]
  dsimp only
  rw [h0]
  dsimp only
  rw [hbad]
  simp

/-- Every replay of an already-cached request returns the cached response
and leaves the table alone, for any number of repetitions. -/
lemma publishN_replay (env : PublishEnv) (user_id : Nat)
    (form : PublishFormData) (key : IdempotencyKey) (saved : HttpResp)
    (hk : IdempotencyKey.tryFrom form.idempotency_key = .ok key) :
    ∀ n (db : IdemDb), idemLookup db user_id key.val = some (some saved) →
      publishN env user_id form n db =
        List.replicate n
          ⟨.ok saved, db, [.fetchSubscribers, .tryProcessingE]⟩ := by
  intro n
  induction n with
  | zero => intro db _; rfl
  | succ m ih =>
    intro db hc
    rw [publishN, publish_replay env db user_id form key saved hk hc]
    dsimp only
    rw [ih db hc, List.replicate_succ]

/-- A failing dispatch somewhere in the list forces the loop to report
failure. -/
lemma sendLoop_false_of_exists (env : PublishEnv) :
    ∀ (l : List (Except Unit Email)) (e : Email), .ok e ∈ l →
      env.sendOk e.val = false → (sendLoop env l).2 = false := by
  intro l
  induction l with
  | nil => intro e he; cases he
  | cons hd tl ih =>
    intro e he hfail
    cases hd with
    | error u =>
      rcases List.mem_cons.mp he with heq | hmem
      · cases heq
      · exact ih e hmem hfail
    | ok e' =>
      by_cases hs : env.sendOk e'.val
      · rcases List.mem_cons.mp he with heq | hmem
        · cases Except.ok.inj heq
          rw [hs] at hfail
          cases hfail
        · simp only [sendLoop, hs, if_true]
          exact ih e hmem hfail
      · simp [sendLoop, hs]

/-- When the loop reports success, every valid recipient was dispatched to
successfully and appears among the attempted sends. -/
lemma sendLoop_true_mem (env : PublishEnv) :
    ∀ (l : List (Except Unit Email)) (e : Email),
      (sendLoop env l).2 = true → .ok e ∈ l →
      env.sendOk e.val = true ∧ e.val ∈ (sendLoop env l).1 := by
  intro l
  induction l with
  | nil => intro e _ he; cases he
  | cons hd tl ih =>
    intro e hok he
    cases hd with
    | error u =>
      rcases List.mem_cons.mp he with heq | hmem
      · cases heq
      · exact ih e hok hmem
    | ok e' =>
      by_cases hs : env.sendOk e'.val
      · simp only [sendLoop, hs, if_true] at hok ⊢
        rcases List.mem_cons.mp he with heq | hmem
        · cases Except.ok.inj heq
          exact ⟨hs, List.mem_cons_self _ _⟩
        · exact ⟨(ih e hok hmem).1, List.mem_cons_of_mem _ (ih e hok hmem).2⟩
      · simp [sendLoop, hs] at hok

/-- C1 (idempotency store modelled from the spec, serialized order): once a
publish attempt for a (user_id, idempotency_key) pair completes, repeating
the same request any number of times yields identical responses — the first
attempt's — and every attempt after the first takes the ReturnSavedResponse
branch, making no send_email call: its whole trace is the fetch and the
store lookup, so exactly one batch of emails is ever dispatched. -/
theorem publish_retry_at_most_one_send (env : PublishEnv) (db : IdemDb)
    (user_id : Nat) (form : PublishFormData) (key : IdempotencyKey)
    (r : HttpResp) (n : Nat)
    (hk : IdempotencyKey.tryFrom form.idempotency_key = .ok key)
    (h0 : idemLookup db user_id key.val = none)
    (h1 : (publish_newsletter env db user_id form).response = .ok r) :
    (publishN env user_id form (n + 1) db).map (fun o => o.response) =
      List.replicate (n + 1) (Except.ok r) ∧
    (publishN env user_id form (n + 1) db).head? =
      some (publish_newsletter env db user_id form) ∧
    ∀ o ∈ (publishN env user_id form (n + 1) db).tail,
      o.response = .ok r ∧
      o.trace = [.fetchSubscribers, .tryProcessingE] := by
  have hok : (sendLoop env (get_confirmed_subscribers env)).2 = true := by
    cases hb : (sendLoop env (get_confirmed_subscribers env)).2
    · rw [publish_fresh_fail env db user_id form key hk h0 hb] at h1
      cases h1
    · rfl
  have hpub := publish_fresh_success env db user_id form key hk h0 hok
  have hr : r = see_other adminNewslettersPath := by
    rw [hpub] at h1
    exact (Except.ok.inj h1).symm
  subst hr
  have hlook := idemLookup_save_response db key user_id
    (see_other adminNewslettersPath)
  have hrest := publishN_replay env user_id form key
    (see_other adminNewslettersPath) hk n
    (save_response db key user_id (see_other adminNewslettersPath)) hlook
  have hN : publishN env user_id form (n + 1) db =
      publish_newsletter env db user_id form ::
        List.replicate n
          ⟨.ok (see_other adminNewslettersPath),
            save_response db key user_id (see_other adminNewslettersPath),
            [.fetchSubscribers, .tryProcessingE]⟩ := by
    rw [publishN]
    rw [hpub]
    dsimp only
    rw [← hpub, hrest]
  rw [hN]
  refine ⟨?_, rfl, ?_⟩
  · rw [List.map_cons, List.map_replicate]
    dsimp only
    rw [hpub]
    rw [List.replicate_succ]
  · intro o ho
    rw [List.tail_cons] at ho
    have := List.eq_of_mem_replicate ho
    subst this
    exact ⟨rfl, rfl⟩

/-- Witness for C1: one confirmed subscriber, an accepting validator and a
working gateway; the first attempt succeeds, and running the request twice
yields two identical responses with the retry making no sends. -/
theorem publish_retry_at_most_one_send_witness :
    (publishN ⟨[['a']], fun _ => true, fun _ => true⟩ 0
      ⟨[], [], [], ['k']⟩ 2 []).map (fun o => o.response) =
      List.replicate 2 (Except.ok (see_other adminNewslettersPath)) ∧
    ∀ o ∈ (publishN ⟨[['a']], fun _ => true, fun _ => true⟩ 0
      ⟨[], [], [], ['k']⟩ 2 []).tail,
      o.response = .ok (see_other adminNewslettersPath) ∧
      o.trace = [.fetchSubscribers, .tryProcessingE] := by
  have h := publish_retry_at_most_one_send
    ⟨[['a']], fun _ => true, fun _ => true⟩ [] 0 ⟨[], [], [], ['k']⟩
    ⟨['k']⟩ (see_other adminNewslettersPath) 1
    (by decide) (by decide) (by decide)
  exact ⟨h.1, h.2.2⟩

/-- C2 counterexample: the claim says a malformed idempotency key fails with
400 before anything else happens and that subscribers are fetched only after
the store finds no cached response; but on the empty (malformed) key the
code still performs the confirmed-subscriber fetch before rejecting with
400 — the fetch precedes key validation in the handler. -/
theorem publish_fetch_precedes_key_validation :
    (publish_newsletter ⟨[['a']], fun _ => true, fun _ => true⟩ [] 0
      ⟨[], [], [], []⟩).response = .error 400 ∧
    PubEffect.fetchSubscribers ∈
      (publish_newsletter ⟨[['a']], fun _ => true, fun _ => true⟩ [] 0
        ⟨[], [], [], []⟩).trace := by
  decide

/-- C2 (amended): the pipeline's actual order — the confirmed-subscriber
fetch always happens first; a malformed key (empty or not shorter than 50
bytes) is then rejected with 400 after that fetch but before the store is
consulted; a cached response is returned without any email dispatch; and the
key format check accepts exactly the non-empty strings shorter than 50
bytes. -/
theorem publish_pipeline_actual_order (env : PublishEnv) (db : IdemDb)
    (user_id : Nat) (form : PublishFormData) :
    (publish_newsletter env db user_id form).trace.head? =
      some .fetchSubscribers ∧
    (IdempotencyKey.tryFrom form.idempotency_key = .error () →
      publish_newsletter env db user_id form =
        ⟨.error 400, db, [.fetchSubscribers]⟩) ∧
    (∀ key saved, IdempotencyKey.tryFrom form.idempotency_key = .ok key →
      idemLookup db user_id key.val = some (some saved) →
      publish_newsletter env db user_id form =
        ⟨.ok saved, db, [.fetchSubscribers, .tryProcessingE]⟩) ∧
    (∀ s : Str, (∃ k, IdempotencyKey.tryFrom s = .ok k) ↔
      (s ≠ [] ∧ utf8Len s < 50)) := by
  refine ⟨?_, ?_, ?_, ?_⟩
  · unfold publish_newsletter
    split
    · rfl
    · split
      · rfl
      · rfl
      · dsimp only
        split <;> rfl
  · intro he
    unfold publish_newsletter
    rw [he]
  · intro key saved hk hc
    exact publish_replay env db user_id form key saved hk hc
  · intro s
    by_cases h1 : s.isEmpty
    · have hs : s = [] := List.isEmpty_iff.mp h1
      simp [IdempotencyKey.tryFrom, h1, hs]
    · by_cases h2 : 50 ≤ utf8Len s
      · simp only [IdempotencyKey.tryFrom, h1, Bool.false_eq_true, if_false,
          h2, if_true]
        constructor
        · intro ⟨k, hknot⟩; cases hknot
        · intro ⟨_, hlt⟩; omega
      · simp only [IdempotencyKey.tryFrom, h1, Bool.false_eq_true, if_false,
          h2, if_false]
        constructor
        · intro _
          refine ⟨fun hs => h1 (by simp [hs]), by omega⟩
        · intro _
          exact ⟨⟨s⟩, rfl⟩

/-- Witness for C2 (amended): on the empty key the handler answers 400 with
the fetch already performed, and on a cached key it replays the cached
response without dispatching. -/
theorem publish_pipeline_actual_order_witness :
    publish_newsletter ⟨[['a']], fun _ => true, fun _ => true⟩ [] 0
      ⟨[], [], [], []⟩ = ⟨.error 400, [], [.fetchSubscribers]⟩ ∧
    publish_newsletter ⟨[['a']], fun _ => true, fun _ => true⟩
      [((0, ['k']), some ⟨303, []⟩)] 0 ⟨[], [], [], ['k']⟩ =
      ⟨.ok ⟨303, []⟩, [((0, ['k']), some ⟨303, []⟩)],
        [.fetchSubscribers, .tryProcessingE]⟩ := by
  constructor
  · exact (publish_pipeline_actual_order
      ⟨[['a']], fun _ => true, fun _ => true⟩ [] 0 ⟨[], [], [], []⟩).2.1
      (by decide)
  · exact (publish_pipeline_actual_order
      ⟨[['a']], fun _ => true, fun _ => true⟩ [((0, ['k']), some ⟨303, []⟩)]
      0 ⟨[], [], [], ['k']⟩).2.2.1 ⟨['k']⟩ ⟨303, []⟩ (by decide) (by decide)

/-- Whenever a publish attempt reaches `save_response`, its dispatch loop
succeeded for every valid confirmed subscriber, which all appear among the
sends of the trace. -/
lemma publish_save_implies_all_sent (env : PublishEnv) (db : IdemDb)
    (user_id : Nat) (form : PublishFormData)
    (hsave : PubEffect.saveResponseE ∈
      (publish_newsletter env db user_id form).trace) :
    ∀ e ∈ env.rows, env.emailValid e = true →
      env.sendOk e = true ∧
      PubEffect.sendEmail e ∈ (publish_newsletter env db user_id form).trace := by
  intro e hmem hvalid
  have hsub : Except.ok (⟨e⟩ : Email) ∈ get_confirmed_subscribers env := by
    unfold get_confirmed_subscribers
    have : Email.parse env.emailValid e = .ok ⟨e⟩ := by
      unfold Email.parse
      rw [if_pos hvalid]
    exact this ▸ List.mem_map_of_mem _ hmem
  revert hsave
  unfold publish_newsletter try_processing
  cases hk : IdempotencyKey.tryFrom form.idempotency_key with
  | error u =>
    intro hsave
    simp at hsave
  | ok key =>
    dsimp only
    cases hc : idemLookup db user_id key.val with
    | none =>
      dsimp only
      cases hb : (sendLoop env (get_confirmed_subscribers env)).2
      · intro hsave
        rw [if_neg (by simp)] at hsave
        simp at hsave
      · intro _
        rw [if_pos rfl]
        dsimp only
        have h := sendLoop_true_mem env (get_confirmed_subscribers env)
          ⟨e⟩ hb hsub
        refine ⟨h.1, ?_⟩
        simp only [List.mem_append, List.mem_map]
        exact Or.inl (Or.inr ⟨e, h.2, rfl⟩)
    | some cached =>
      cases cached with
      | none =>
        intro hsave
        simp at hsave
      | some saved =>
        intro hsave
        simp at hsave

/-- C3: when the dispatch of any single email to a valid confirmed
subscriber fails, the whole publish attempt aborts with 500 and nothing is
cached under the idempotency key — the committed table is unchanged and
save_response is never reached; conversely save_response is reached only
when send_email succeeded for every valid confirmed subscriber. -/
theorem publish_send_failure_leaves_retryable (env : PublishEnv)
    (db : IdemDb) (user_id : Nat) (form : PublishFormData)
    (key : IdempotencyKey)
    (hk : IdempotencyKey.tryFrom form.idempotency_key = .ok key)
    (h0 : idemLookup db user_id key.val = none)
    (hfail : ∃ e ∈ env.rows, env.emailValid e = true ∧ env.sendOk e = false) :
    (publish_newsletter env db user_id form).response = .error 500 ∧
    (publish_newsletter env db user_id form).idem = db ∧
    PubEffect.saveResponseE ∉
      (publish_newsletter env db user_id form).trace ∧
    ∀ (env' : PublishEnv) (db' : IdemDb) (uid' : Nat)
      (form' : PublishFormData),
      PubEffect.saveResponseE ∈
        (publish_newsletter env' db' uid' form').trace →
      ∀ e ∈ env'.rows, env'.emailValid e = true →
        env'.sendOk e = true ∧
        PubEffect.sendEmail e ∈
          (publish_newsletter env' db' uid' form').trace := by
  obtain ⟨e, hmem, hvalid, hdead⟩ := hfail
  have hsub : Except.ok (⟨e⟩ : Email) ∈ get_confirmed_subscribers env := by
    unfold get_confirmed_subscribers
    have : Email.parse env.emailValid e = .ok ⟨e⟩ := by
      unfold Email.parse
      rw [if_pos hvalid]
    exact this ▸ List.mem_map_of_mem _ hmem
  have hbad : (sendLoop env (get_confirmed_subscribers env)).2 = false :=
    sendLoop_false_of_exists env (get_confirmed_subscribers env) ⟨e⟩ hsub hdead
  have hpub := publish_fresh_fail env db user_id form key hk h0 hbad
  rw [hpub]
  refine ⟨rfl, rfl, ?_, ?_⟩
  · dsimp only
    simp
  · intro env' db' uid' form' hsave
    exact publish_save_implies_all_sent env' db' uid' form' hsave

/-- Witness for C3: one valid confirmed subscriber whose dispatch fails —
the attempt answers 500 and the idempotency table stays empty. -/
theorem publish_send_failure_leaves_retryable_witness :
    (publish_newsletter ⟨[['a']], fun _ => true, fun _ => false⟩ [] 0
      ⟨[], [], [], ['k']⟩).response = .error 500 ∧
    (publish_newsletter ⟨[['a']], fun _ => true, fun _ => false⟩ [] 0
      ⟨[], [], [], ['k']⟩).idem = [] ∧
    PubEffect.saveResponseE ∉
      (publish_newsletter ⟨[['a']], fun _ => true, fun _ => false⟩ [] 0
        ⟨[], [], [], ['k']⟩).trace := by
  have h := publish_send_failure_leaves_retryable
    ⟨[['a']], fun _ => true, fun _ => false⟩ [] 0 ⟨[], [], [], ['k']⟩
    ⟨['k']⟩ (by decide) (by decide) ⟨['a'], by decide, by decide, by decide⟩
  exact ⟨h.1, h.2.1, h.2.2.1⟩
